import Mathlib

/-!
Verification of the beacon crisis-triage core: a shallow embedding of the
Triage & Consensus Pipeline (safety regex layer, clinical reasoner with
strategy selection and circuit breaker, Council orchestrator with PACA
consensus fusion, and the response safety validator), together with proofs
of its specified properties.

Numeric scores are embedded as exact rationals (`ℚ`); Python floats carry
no overflow semantics relevant to these claims.  Wall-clock latencies,
model inference and JSON decoding are external effects: they enter the
embedding as explicit oracle parameters, never as stubs of program logic.
-/

set_option maxRecDepth 100000

deriving instance DecidableEq for Except

namespace Beacon

/-! ## Kernel-reducible rational arithmetic

Core marks the `Rat` field operations irreducible, which blocks `decide`
on concrete inputs.  The embedding therefore computes with the
`Rat.divInt`-based forms below; the bridging lemmas right after prove
each one equal to the standard operation, so symbolic reasoning can move
freely between the two.  (On a zero divisor `qdiv`, like Lean's `/`,
returns 0 where Python would raise ZeroDivisionError; every divisor
reached in the claims is a concrete positive weight sum.) -/

/-- Rational addition in divInt form. -/
def qadd (a b : ℚ) : ℚ :=
  Rat.divInt (a.num * b.den + b.num * a.den) (a.den * b.den)

/-- Rational subtraction in divInt form. -/
def qsub (a b : ℚ) : ℚ :=
  Rat.divInt (a.num * b.den - b.num * a.den) (a.den * b.den)

/-- Rational multiplication in divInt form. -/
def qmul (a b : ℚ) : ℚ :=
  Rat.divInt (a.num * b.num) (a.den * b.den)

/-- Rational division in divInt form. -/
def qdiv (a b : ℚ) : ℚ :=
  Rat.divInt (a.num * b.den) (a.den * b.num)

/-- Python abs on a rational. -/
def ratAbs (a : ℚ) : ℚ :=
  if a < 0 then Rat.divInt (-a.num) a.den else a

theorem qadd_eq (a b : ℚ) : qadd a b = a + b := by
  rw [qadd, ← Rat.divInt_add_divInt _ _
      (Int.natCast_ne_zero.mpr a.den_nz) (Int.natCast_ne_zero.mpr b.den_nz),
    Rat.num_divInt_den, Rat.num_divInt_den]

theorem qsub_eq (a b : ℚ) : qsub a b = a - b := by
  rw [qsub, ← Rat.divInt_sub_divInt _ _
      (Int.natCast_ne_zero.mpr a.den_nz) (Int.natCast_ne_zero.mpr b.den_nz),
    Rat.num_divInt_den, Rat.num_divInt_den]

theorem qmul_eq (a b : ℚ) : qmul a b = a * b := by
  rw [qmul, ← Rat.divInt_mul_divInt', Rat.num_divInt_den, Rat.num_divInt_den]

theorem qdiv_eq (a b : ℚ) : qdiv a b = a / b := by
  rw [qdiv, ← Rat.divInt_div_divInt, Rat.num_divInt_den, Rat.num_divInt_den]

theorem ratAbs_eq (a : ℚ) : ratAbs a = |a| := by
  rw [ratAbs]
  rcases lt_or_ge a 0 with h | h
  · rw [if_pos h, ← Rat.neg_divInt, Rat.num_divInt_den, abs_of_neg h]
  · rw [if_neg (not_lt.mpr h), abs_of_nonneg h]

/-! ## String helpers (Python `str.lower`, substring containment) -/

/-- Characters of a string lowered, mirroring Python `str.lower()` on the
ASCII range (all phrases and keywords in the repository are ASCII). -/
def lowerChars (s : String) : List Char :=
  s.data.map Char.toLower

/-- Python substring containment `sub in hay` on char lists. -/
def occursIn (hay sub : List Char) : Bool :=
  (List.range (hay.length + 1)).any fun i =>
    decide (i + sub.length ≤ hay.length) && ((hay.drop i).take sub.length == sub)

/-- Python `kw in s.lower()` for an (already lowercase) keyword literal. -/
def containsLower (s kw : String) : Bool :=
  occursIn (lowerChars s) kw.data

/-- Helper for `pySplit`: walk the characters accumulating the current
word (reversed), emitting it at each whitespace run or at the end. -/
def splitWsAux : List Char → List Char → List (List Char)
  | [], cur => if cur.isEmpty then [] else [cur.reverse]
  | c :: rest, cur =>
      if c.isWhitespace then
        if cur.isEmpty then splitWsAux rest []
        else cur.reverse :: splitWsAux rest []
      else splitWsAux rest (c :: cur)

/-- Python `s.split()` with no separator: split on whitespace runs,
dropping empty pieces. -/
def pySplit (s : String) : List (List Char) :=
  splitWsAux s.data []

/-! ## Risk levels and result records
(src/src/reasoning/mistral_reasoner.py) -/

/-- RiskLevel enum of mistral_reasoner.py: CRISIS / CAUTION / SAFE. -/
inductive MistralRisk where
  | crisis
  | caution
  | safe
deriving DecidableEq, Repr

/-- The string `.value` of a RiskLevel member. -/
def MistralRisk.value : MistralRisk → String
  | .crisis => "crisis"
  | .caution => "caution"
  | .safe => "safe"

/-- ClinicalMarker frozen dataclass (category, item, confidence, evidence). -/
structure ClinicalMarker where
  category : String
  item : String
  confidence : ℚ
  evidence : String
deriving DecidableEq, Repr

/-- ReasoningResult frozen dataclass of mistral_reasoner.py. -/
structure ReasoningResult where
  p_mistral : ℚ
  risk_level : MistralRisk
  reasoning_trace : String
  clinical_markers : List ClinicalMarker
  is_sarcasm : Bool
  sarcasm_reasoning : String
  latency_ms : ℚ
  model_used : String
deriving DecidableEq, Repr

/-- SafetyResult interface consumed by the Council orchestrator
(src/src/safety/safety_analyzer.py declares it; agent_graph.py reads the
fields p_regex, p_semantic, sarcasm_filtered and matched_patterns).
p_semantic is the value the analyzer emits, i.e. already
sarcasm-attenuated when the filter fired. -/
structure SafetyResult where
  p_regex : ℚ
  p_semantic : ℚ
  p_sarcasm : ℚ
  matched_patterns : List String
  sarcasm_filtered : Bool
  is_crisis : Bool
deriving DecidableEq, Repr

/-! ## ConsensusConfig (src/src/orchestrator/consensus_config.py) -/

/-- ConsensusConfig frozen dataclass: layer weights, decision thresholds,
timeout settings (seconds) and circuit-breaker settings. -/
structure ConsensusConfig where
  w_regex : ℚ
  w_semantic : ℚ
  w_mistral : ℚ
  w_history : ℚ
  crisis_threshold : ℚ
  caution_threshold : ℚ
  mistral_timeout : ℚ
  total_timeout : ℚ
  circuit_breaker_enabled : Bool
  circuit_breaker_threshold : Nat
  circuit_breaker_timeout : Nat
deriving DecidableEq, Repr

/-- The field defaults of ConsensusConfig (consensus_config.py lines 23-39). -/
def defaultConsensusConfig : ConsensusConfig :=
  { w_regex := mkRat 2 5
  , w_semantic := mkRat 1 5
  , w_mistral := mkRat 3 10
  , w_history := mkRat 1 10
  , crisis_threshold := mkRat 9 10
  , caution_threshold := mkRat 13 20
  , mistral_timeout := 3
  , total_timeout := 5
  , circuit_breaker_enabled := true
  , circuit_breaker_threshold := 5
  , circuit_breaker_timeout := 30 }

/-- The `__post_init__` validation of ConsensusConfig: weights sum to
1.0 ± 0.01, weights non-negative, thresholds in [0,1] with
crisis > caution, timeouts positive.  Returns the config unchanged when
every check passes (construction succeeds), an error otherwise. -/
def validateConfig (c : ConsensusConfig) : Except String ConsensusConfig :=
  let weightSum := qadd (qadd (qadd c.w_regex c.w_semantic) c.w_mistral) c.w_history
  if ¬ (mkRat 99 100 ≤ weightSum ∧ weightSum ≤ mkRat 101 100) then
    .error "Weights must sum to 1.0"
  else if c.w_regex < 0 ∨ c.w_semantic < 0 ∨ c.w_mistral < 0 ∨ c.w_history < 0 then
    .error "All weights must be non-negative"
  else if ¬ (0 ≤ c.crisis_threshold ∧ c.crisis_threshold ≤ 1) then
    .error "Crisis threshold must be 0.0-1.0"
  else if ¬ (0 ≤ c.caution_threshold ∧ c.caution_threshold ≤ 1) then
    .error "Caution threshold must be 0.0-1.0"
  else if c.crisis_threshold ≤ c.caution_threshold then
    .error "Crisis threshold must be > caution threshold"
  else if c.mistral_timeout ≤ 0 then
    .error "Mistral timeout must be positive"
  else if c.total_timeout ≤ 0 then
    .error "Total timeout must be positive"
  else
    .ok c

/-! ## Regex detection strategy
(src/src/safety/strategies/regex_strategy.py)

`_compile_patterns` turns each catalog category into the RE2 pattern
`(?i)\b(` escaped-phrases-joined-by-bar `)\b`; `analyze` lowercases the
message, searches every compiled pattern, and returns the maximum
confidence among the matching categories together with their names.  The
embedding gives that compiled pattern its RE2 search semantics directly:
a category matches iff some phrase occurs in the lowercased message with
an ASCII word boundary on each side (an empty alternation degenerates to
a bare boundary test, exactly as the compiled empty group would). -/

/-- RE2 ASCII word character (what backslash-b tests): [0-9A-Za-z_]. -/
def isWordChar (c : Char) : Bool :=
  c.isAlphanum || c == '_'

/-- Word-boundary test at position i of a char list (0 ≤ i ≤ length):
the boundary holds iff exactly one of the adjacent positions holds a word
character (a missing neighbour counts as non-word). -/
def boundaryAt (s : List Char) (i : Nat) : Bool :=
  let before := decide (0 < i) && (match s.get? (i - 1) with
    | some c => isWordChar c
    | none => false)
  let after := match s.get? i with
    | some c => isWordChar c
    | none => false
  before != after

/-- Case-insensitive literal occurrence of an escaped phrase at position i,
with word boundaries on both sides (the `\b(...)\b` wrapper). -/
def phraseAt (s : List Char) (p : List Char) (i : Nat) : Bool :=
  decide (i + p.length ≤ s.length)
    && ((s.drop i).take p.length == p.map Char.toLower)
    && boundaryAt s i
    && boundaryAt s (i + p.length)

/-- `pattern.search` for one phrase: some occurrence anywhere. -/
def phraseMatches (s : List Char) (p : String) : Bool :=
  (List.range (s.length + 1)).any fun i => phraseAt s p.data i

/-- `pattern.search` for a category: the alternation matches iff some
phrase of the category matches; an empty phrase list compiles to an empty
group, which matches wherever a word boundary exists. -/
def categoryMatches (s : List Char) (phrases : List String) : Bool :=
  if phrases.isEmpty then (List.range (s.length + 1)).any (boundaryAt s)
  else phrases.any (phraseMatches s)

/-- One category of the crisis-pattern catalog: its phrase list and its
confidence (the compiled form keeps exactly these, plus the pattern). -/
structure PatternCategory where
  phrases : List String
  confidence : ℚ
deriving DecidableEq, Repr

/-- A pattern catalog in iteration order: category name ↦ its config
(Python dicts preserve insertion order, so the analyze loop walks this
list in order). -/
def PatternCatalog := List (String × PatternCategory)

/-- Python `max` on two rationals (kept as an explicit conditional so the
kernel can evaluate it on concrete inputs). -/
def ratMax (a b : ℚ) : ℚ :=
  if a ≤ b then b else a

/-- RegexDetectionStrategy.analyze: lowercase the message, fold over the
catalog keeping the running maximum confidence over matching categories
and appending each matching category name; the context argument is unused
(regex is context-independent). -/
def regexAnalyze (catalog : PatternCatalog) (message : String)
    (context : List String) : ℚ × List String :=
  let msgL := lowerChars message
  let _ := context
  catalog.foldl
    (fun acc cat =>
      if categoryMatches msgL cat.2.phrases then
        (ratMax acc.1 cat.2.confidence, acc.2 ++ [cat.1])
      else acc)
    (0, [])

/-- The categories of the catalog whose compiled alternation matches the
lowercased message (the claim-side characterisation of the match set). -/
def matchingCategories (catalog : PatternCatalog) (message : String) :
    PatternCatalog :=
  catalog.filter fun cat => categoryMatches (lowerChars message) cat.2.phrases

/-- A one-category catalog holding the spec's word-boundary edge case:
the phrase "die" at the suicidal_ideation confidence 0.95. -/
def dieCatalog : PatternCatalog :=
  [("suicidal_ideation", { phrases := ["die"], confidence := mkRat 19 20 })]

/-! ## Council orchestrator (src/src/orchestrator/agent_graph.py)

The three-node LangGraph workflow Reflex → (routing) → Clinical → Empathy
is embedded as explicit state passing.  The collaborators are oracles:
`safety` stands for `self.safety.analyze(message)`, `mistral` for
`self.mistral.analyze(...)`, and `response` for the reply returned by
`self.conversation.generate_response(...)`.  Wall-clock latency fields
are not modelled. -/

/-- One history entry, a dict with role and content. -/
structure HistoryMsg where
  role : String
  content : String
deriving DecidableEq, Repr

/-- The AgentState TypedDict shared by the Council nodes. -/
structure CouncilState where
  session_id : String
  message : String
  conversation_history : List HistoryMsg
  safety_result : Option SafetyResult
  mistral_result : Option ReasoningResult
  config : ConsensusConfig
  risk_level : String
  final_response : String
  final_score : ℚ
  is_crisis : Bool
  matched_patterns : List String
  trace_steps : List String
deriving DecidableEq, Repr

/-- The initial state built by CouncilGraph.run (agent_graph.py 484-496):
empty results, SAFE risk, score 0, and a fresh all-default
ConsensusConfig. -/
def initialState (message session_id : String) (history : List HistoryMsg) :
    CouncilState :=
  { session_id := session_id
  , message := message
  , conversation_history := history
  , safety_result := none
  , mistral_result := none
  , config := defaultConsensusConfig
  , risk_level := "SAFE"
  , final_response := ""
  , final_score := 0
  , is_crisis := false
  , matched_patterns := []
  , trace_steps := [] }

/-- Node 1, `_reflex_node`: run the safety service, record its result,
set is_crisis to (p_regex ≥ 0.90), copy the matched patterns, trace
"reflex_checked". -/
def reflexNode (st : CouncilState) (safety : SafetyResult) : CouncilState :=
  { st with
      safety_result := some safety
    , is_crisis := decide (mkRat 9 10 ≤ safety.p_regex)
    , matched_patterns := safety.matched_patterns
    , trace_steps := st.trace_steps ++ ["reflex_checked"] }

/-- `_route_after_reflex`: red on the regex crisis flag, yellow when
p_semantic > 0.50 or the sarcasm filter fired or any pattern matched or
p_regex > 0.30, green otherwise.  (The none branch is unreachable: the
reflex node always stores a safety result before routing runs.) -/
def routeAfterReflex (st : CouncilState) : String :=
  if st.is_crisis then "red_path"
  else
    match st.safety_result with
    | none => "green_path"
    | some safety =>
        if (mkRat 1 2 < safety.p_semantic)
            || safety.sarcasm_filtered
            || decide (0 < safety.matched_patterns.length)
            || (mkRat 3 10 < safety.p_regex) then "yellow_path"
        else "green_path"

/-- Node 2, `_clinical_node`: record the reasoner result, set risk_level
to its enum value string, OR the crisis flag with (risk_level == CRISIS),
merge the markers' categories into matched_patterns deduplicated (the
source builds `list(set(...))`, whose order is unspecified; the embedding
fixes first-occurrence order — no claim depends on the order), trace
"clinical_reviewed". -/
def clinicalNode (st : CouncilState) (result : ReasoningResult) :
    CouncilState :=
  { st with
      mistral_result := some result
    , risk_level := result.risk_level.value
    , is_crisis := st.is_crisis || (result.risk_level == .crisis)
    , matched_patterns :=
        (st.matched_patterns ++ result.clinical_markers.map (·.category)).eraseDups
    , trace_steps := st.trace_steps ++ ["clinical_reviewed"] }

/-- The PACA consensus arithmetic of `_empathy_node` (lines 226-243):
normalise the weights over the contributing layers (w_history excluded)
and form the weighted sum; when the mistral result is absent only regex
and semantic contribute. -/
def empathyFusion (cfg : ConsensusConfig) (regexScore semanticScore : ℚ)
    (mistral : Option ℚ) : ℚ :=
  let totalWeight := qadd (qadd cfg.w_regex cfg.w_semantic) cfg.w_mistral
  match mistral with
  | some mistralScore =>
      qadd (qadd (qmul regexScore (qdiv cfg.w_regex totalWeight))
          (qmul semanticScore (qdiv cfg.w_semantic totalWeight)))
        (qmul mistralScore (qdiv cfg.w_mistral totalWeight))
  | none =>
      qadd (qmul regexScore (qdiv cfg.w_regex (qadd cfg.w_regex cfg.w_semantic)))
        (qmul semanticScore (qdiv cfg.w_semantic (qadd cfg.w_regex cfg.w_semantic)))

/-- `regex_score = float(safety_result.p_regex) if safety_result else 0.0`
(agent_graph.py 215). -/
def safetyRegexScore (st : CouncilState) : ℚ :=
  match st.safety_result with
  | some s => s.p_regex
  | none => 0

/-- `semantic_score = float(safety_result.p_semantic) if safety_result
else 0.0` (agent_graph.py 216). -/
def safetySemanticScore (st : CouncilState) : ℚ :=
  match st.safety_result with
  | some s => s.p_semantic
  | none => 0

/-- The risk decision of `_empathy_node` (agent_graph.py 245-259): map
the consensus score through the thresholds, then override to CRISIS when
the routing/clinical crisis flag was already set. -/
def empathyRisk (cfg : ConsensusConfig) (finalScore : ℚ) (crisisFlag : Bool) :
    String × Bool :=
  let riskPair : String × Bool :=
    if cfg.crisis_threshold ≤ finalScore then ("CRISIS", true)
    else if cfg.caution_threshold ≤ finalScore then ("CAUTION", false)
    else ("SAFE", false)
  if crisisFlag then ("CRISIS", true) else riskPair

/-- Node 3, `_empathy_node`: compute the PACA consensus from the stored
results (each score reads 0.0 when its record is absent), decide the risk
level with the crisis override, store the generated response and trace
"response_generated". -/
def empathyNode (st : CouncilState) (response : String) : CouncilState :=
  let finalScore :=
    empathyFusion st.config (safetyRegexScore st) (safetySemanticScore st)
      (st.mistral_result.map (·.p_mistral))
  let riskPair := empathyRisk st.config finalScore st.is_crisis
  { st with
      final_response := response
    , risk_level := riskPair.1
    , is_crisis := riskPair.2
    , final_score := finalScore
    , trace_steps := st.trace_steps ++ ["response_generated"] }

/-- CouncilGraph.run generalised over the config placed in the initial
state: Reflex, then the conditional edge (green straight to Empathy,
yellow and red through Clinical), then Empathy. -/
def councilRunWith (cfg : ConsensusConfig) (message session_id : String)
    (history : List HistoryMsg) (safety : SafetyResult)
    (mistral : ReasoningResult) (response : String) : CouncilState :=
  let st0 := { initialState message session_id history with config := cfg }
  let st1 := reflexNode st0 safety
  if routeAfterReflex st1 = "green_path" then empathyNode st1 response
  else empathyNode (clinicalNode st1 mistral) response

/-- CouncilGraph.run as written: it takes no configuration argument and
always seeds the state with a fresh all-default ConsensusConfig. -/
def councilRun (message session_id : String) (history : List HistoryMsg)
    (safety : SafetyResult) (mistral : ReasoningResult)
    (response : String) : CouncilState :=
  councilRunWith defaultConsensusConfig message session_id history safety
    mistral response

/-- The record returned by CouncilGraph.analyze_fast (minus the wall-clock
latency_ms measurement, which is not modelled). -/
structure FastAnalysis where
  safety_result : SafetyResult
  mistral_result : Option ReasoningResult
  final_score : ℚ
  risk_level : String
  is_crisis : Bool
  matched_patterns : List String
deriving DecidableEq, Repr

/-- The Clinical timeout hard-coded in analyze_fast (seconds): the
`asyncio.wait_for(..., timeout=15.0)` bound.  A timeout surfaces here as
`mistral = none`. -/
def analyzeFastClinicalTimeoutSeconds : ℚ := 15

/-- The risk-level mapping of analyze_fast (agent_graph.py 415-424):
CRISIS when final_score ≥ crisis_threshold or regex_score ≥ 0.90 (the
safety floor, a literal in the source, not the config threshold), CAUTION
when final_score ≥ caution_threshold, else SAFE. -/
def fastRisk (cfg : ConsensusConfig) (finalScore regexScore : ℚ) :
    String × Bool :=
  if cfg.crisis_threshold ≤ finalScore ∨ mkRat 9 10 ≤ regexScore then
    ("CRISIS", true)
  else if cfg.caution_threshold ≤ finalScore then ("CAUTION", false)
  else ("SAFE", false)

/-- The Clinical-present branch of analyze_fast (agent_graph.py 348-375):
compute the three per-layer contributions, sum them, recompute the
weighted sum as a second expression and fail loudly (ValueError) when
the two differ by more than 0.001, else return the sum. -/
def fusedScoreChecked (cfg : ConsensusConfig)
    (regexScore semanticScore mistralScore : ℚ) : Except String ℚ :=
  let totalWeight := qadd (qadd cfg.w_regex cfg.w_semantic) cfg.w_mistral
  let nwR := qdiv cfg.w_regex totalWeight
  let nwS := qdiv cfg.w_semantic totalWeight
  let nwM := qdiv cfg.w_mistral totalWeight
  let regexContribution := qmul regexScore nwR
  let semanticContribution := qmul semanticScore nwS
  let mistralContribution := qmul mistralScore nwM
  let finalScore :=
    qadd (qadd regexContribution semanticContribution) mistralContribution
  let expectedScore :=
    qadd (qadd (qmul regexScore nwR) (qmul semanticScore nwS)) (qmul mistralScore nwM)
  if mkRat 1 1000 < ratAbs (qsub finalScore expectedScore) then
    .error "Consensus calculation mismatch"
  else .ok finalScore

/-- The Clinical-absent branch of analyze_fast: renormalise over
regex+semantic only, no recomputation check. -/
def unfusedScore (cfg : ConsensusConfig) (regexScore semanticScore : ℚ) : ℚ :=
  qadd
    (qmul regexScore (qdiv cfg.w_regex (qadd cfg.w_regex cfg.w_semantic)))
    (qmul semanticScore (qdiv cfg.w_semantic (qadd cfg.w_regex cfg.w_semantic)))

/-- CouncilGraph.analyze_fast generalised over the internally-constructed
config: the checked fused score when the mistral result arrived, the
unchecked renormalised score when it timed out, then the risk mapping.
The safety and mistral arguments are the collaborator oracles; a Clinical
timeout enters as `none`. -/
def analyzeFastWith (cfg : ConsensusConfig) (message session_id : String)
    (safety : SafetyResult) (mistral : Option ReasoningResult) :
    Except String FastAnalysis :=
  let _ := message
  let _ := session_id
  let scorePair : Except String ℚ :=
    match mistral with
    | some m => fusedScoreChecked cfg safety.p_regex safety.p_semantic m.p_mistral
    | none => .ok (unfusedScore cfg safety.p_regex safety.p_semantic)
  match scorePair with
  | .error e => .error e
  | .ok finalScore =>
      let riskPair := fastRisk cfg finalScore safety.p_regex
      .ok
        { safety_result := safety
        , mistral_result := mistral
        , final_score := finalScore
        , risk_level := riskPair.1
        , is_crisis := riskPair.2
        , matched_patterns := safety.matched_patterns }

/-- CouncilGraph.analyze_fast as written: no configuration argument, a
fresh all-default ConsensusConfig built internally. -/
def analyzeFast (message session_id : String) (safety : SafetyResult)
    (mistral : Option ReasoningResult) : Except String FastAnalysis :=
  analyzeFastWith defaultConsensusConfig message session_id safety mistral

/-- The PACA consensus formula as the specification words it: with a
Clinical result, final = R·(w_regex/d) + S·(w_semantic/d) + M·(w_mistral/d)
with d = w_regex + w_semantic + w_mistral; without one,
final = R·(w_regex/d2) + S·(w_semantic/d2) with d2 = w_regex + w_semantic.
Written from the spec sentence, to be compared against the two code
sites. -/
def pacaFusionSpec (cfg : ConsensusConfig) (regexScore semanticScore : ℚ)
    (mistral : Option ℚ) : ℚ :=
  match mistral with
  | some mistralScore =>
      let d := cfg.w_regex + cfg.w_semantic + cfg.w_mistral
      regexScore * (cfg.w_regex / d) + semanticScore * (cfg.w_semantic / d)
        + mistralScore * (cfg.w_mistral / d)
  | none =>
      let d := cfg.w_regex + cfg.w_semantic
      regexScore * (cfg.w_regex / d) + semanticScore * (cfg.w_semantic / d)

/-- w_history plays no part in the fusion: the claim-side restatement of
the denominators, used to show the history weight is excluded. -/
def fusionDenominator (cfg : ConsensusConfig) (mistralPresent : Bool) : ℚ :=
  if mistralPresent then cfg.w_regex + cfg.w_semantic + cfg.w_mistral
  else cfg.w_regex + cfg.w_semantic

/-! ## Strategy selector (src/src/reasoning/strategy_selector.py)

The selector's whole mutable state is the pair of counters below; it
records no timestamps.  Time passing therefore cannot change it, which
`selectorElapse` makes explicit. -/

/-- Which strategy object select_strategy returns (fast_strategy or
expert_strategy). -/
inductive StrategyChoice where
  | fast
  | expert
deriving DecidableEq, Repr

/-- The state of a StrategySelector: the consecutive-failure counter, the
opening threshold, and the expert timeout in seconds.  These three fields
are everything __init__ stores besides the two strategy objects. -/
structure SelectorState where
  expertFailures : Nat
  maxExpertFailures : Nat
  expertTimeout : ℚ
deriving DecidableEq, Repr

/-- A StrategySelector as MistralReasoner.__init__ constructs it:
expert_timeout=120.0, max_expert_failures=3 (mistral_reasoner.py 206-214,
hard-coded). -/
def mistralSelectorInit : SelectorState :=
  { expertFailures := 0, maxExpertFailures := 3, expertTimeout := 120 }

/-- The selector state after three consecutive Expert failures from a
fresh reasoner-owned selector: the breaker is open. -/
def openSelector : SelectorState :=
  { expertFailures := 3, maxExpertFailures := 3, expertTimeout := 120 }

/-- is_circuit_open: failures ≥ max_failures.  No clock is consulted. -/
def isCircuitOpen (st : SelectorState) : Bool :=
  st.maxExpertFailures ≤ st.expertFailures

/-- record_expert_success: reset the failure counter to 0. -/
def recordExpertSuccess (st : SelectorState) : SelectorState :=
  { st with expertFailures := 0 }

/-- record_expert_failure: increment the failure counter by one. -/
def recordExpertFailure (st : SelectorState) : SelectorState :=
  { st with expertFailures := st.expertFailures + 1 }

/-- The passage of wall-clock time as it acts on the selector state: the
source stores no timestamp, so elapsed seconds change nothing. -/
def selectorElapse (st : SelectorState) (seconds : ℚ) : SelectorState :=
  let _ := seconds
  st

/-- The `_has_crisis_keywords` fixed list (suicidal ideation, self-harm,
intent/plan phrases). -/
def selectorCrisisKeywords : List String :=
  [ "kill myself", "end my life", "want to die", "suicide"
  , "not worth living", "better off dead"
  , "hurt myself", "self harm", "cut myself"
  , "going to", "plan to", "tonight", "pills" ]

/-- _has_crisis_keywords: any keyword occurs in the lowercased message. -/
def hasCrisisKeywords (message : String) : Bool :=
  selectorCrisisKeywords.any (containsLower message)

/-- The `_is_ambiguous` negative-indicator tokens. -/
def negativeWords : List String :=
  [ "bad", "terrible", "awful", "hate", "can\x27t"
  , "never", "always", "nothing", "everything" ]

/-- The `_is_ambiguous` vague-distress phrases. -/
def vagueDistress : List String :=
  [ "i don\x27t know", "i can\x27t", "everything is"
  , "nothing works", "what\x27s the point" ]

/-- _is_ambiguous: a short message (under 15 whitespace words) containing
at least two of the negative tokens, or any vague-distress phrase. -/
def isAmbiguous (message : String) (context : List String) : Bool :=
  let _ := context
  let negativeCount :=
    (negativeWords.filter (containsLower message)).length
  let hasVague := vagueDistress.any (containsLower message)
  let wordCount := (pySplit message).length
  (decide (wordCount < 15) && decide (2 ≤ negativeCount)) || hasVague

/-- select_strategy: circuit open → Fast (circuit_breaker_open); crisis
keywords → Expert (crisis_keywords); truthy preliminary risk > 0.7 →
Expert (high_risk); ambiguous → Expert (ambiguous); else Fast (routine).
A preliminary risk of 0.0 is falsy in Python and skips the high-risk
test, exactly as `none` does. -/
def selectStrategy (st : SelectorState) (message : String)
    (context : List String) (preliminaryRisk : Option ℚ) :
    StrategyChoice × String :=
  if isCircuitOpen st then (.fast, "circuit_breaker_open")
  else if hasCrisisKeywords message then (.expert, "crisis_keywords")
  else if (match preliminaryRisk with
      | some p => !(p == 0) && decide (mkRat 7 10 < p)
      | none => false) then (.expert, "high_risk")
  else if isAmbiguous message context then (.expert, "ambiguous")
  else (.fast, "routine")

/-! ## Expert invocation protocol
(MistralReasoner._analyze_with_selection, mistral_reasoner.py 298-376) -/

/-- What happens when the Expert strategy is run in its bounded wait: it
returns a result within the timeout, exceeds `expert_timeout`, or the
attempt raises. -/
inductive ExpertOutcome where
  | success (r : ReasoningResult)
  | timeout
  | failure (e : String)
deriving DecidableEq, Repr

/-- _analyze_with_selection: run Fast first (its result enters as the
`fastResult` oracle), select with preliminary_risk = fast p_mistral; on a
Fast selection return the Fast result at once; on an Expert selection run
Expert under the bounded wait — success records a success (counter reset)
and returns the Expert result, timeout or exception records one failure
and returns the already-computed Fast result. -/
def analyzeWithSelection (st : SelectorState) (message : String)
    (context : List String) (fastResult : ReasoningResult)
    (expert : ExpertOutcome) : ReasoningResult × SelectorState :=
  let choice := selectStrategy st message context (some fastResult.p_mistral)
  match choice.1 with
  | .fast => (fastResult, st)
  | .expert =>
      match expert with
      | .success r => (r, recordExpertSuccess st)
      | .timeout => (fastResult, recordExpertFailure st)
      | .failure _ => (fastResult, recordExpertFailure st)

/-! ## Reasoning strategies (src/src/reasoning/strategies.py) -/

/-- Outcome of the DistilBERT emotion classifier call: the label→score
rows, or a raised exception. -/
inductive ClassifierOutcome where
  | ok (emotions : List (String × ℚ))
  | exc (e : String)
deriving DecidableEq, Repr

/-- Building `emotion_dict = {e[label]: e[score] for e in emotions}` and
reading one key with default 0.0: the last row with the key wins. -/
def emotionGet (emotions : List (String × ℚ)) (key : String) : ℚ :=
  match (emotions.filter (·.1 == key)).getLast? with
  | some row => row.2
  | none => 0

/-- FastEmotionStrategy.analyze.  `available` is the
_transformers_available flag, `outcome` the classifier oracle, `fmt` the
Python "%.2f" float formatting used only inside one trace string, and
`latency` the wall-clock measurement.  Unavailable → SAFE fallback with
model "none"; classifier exception → SAFE fallback with model "error";
otherwise p = 0.5·sadness + 0.3·fear + 0.2·anger with CAUTION above 0.5
and SAFE otherwise (both positive branches give CAUTION: the Fast
strategy never returns CRISIS). -/
def fastAnalyze (available : Bool) (outcome : ClassifierOutcome)
    (fmt : ℚ → String) (latency : ℚ) : ReasoningResult :=
  if !available then
    { p_mistral := 0
    , risk_level := .safe
    , reasoning_trace := "Strategy failed: Transformers not available"
    , clinical_markers := []
    , is_sarcasm := false
    , sarcasm_reasoning := ""
    , latency_ms := 0
    , model_used := "none" }
  else
    match outcome with
    | .exc e =>
        { p_mistral := 0
        , risk_level := .safe
        , reasoning_trace := "Error: " ++ e
        , clinical_markers := []
        , is_sarcasm := false
        , sarcasm_reasoning := ""
        , latency_ms := latency
        , model_used := "error" }
    | .ok emotions =>
        let sadness := emotionGet emotions "sadness"
        let fear := emotionGet emotions "fear"
        let anger := emotionGet emotions "anger"
        let pScore :=
          qadd (qadd (qmul sadness (mkRat 1 2)) (qmul fear (mkRat 3 10)))
            (qmul anger (mkRat 1 5))
        let riskTrace : MistralRisk × String :=
          if mkRat 3 4 < pScore then
            (.caution, "High negative emotion (sad:" ++ fmt sadness
              ++ ", fear:" ++ fmt fear ++ ")")
          else if mkRat 1 2 < pScore then (.caution, "Moderate negative emotion")
          else (.safe, "Emotions within normal range")
        { p_mistral := pScore
        , risk_level := riskTrace.1
        , reasoning_trace := riskTrace.2
        , clinical_markers := []
        , is_sarcasm := false
        , sarcasm_reasoning := "Not checked in Fast Strategy"
        , latency_ms := latency
        , model_used := "distilbert-emotion" }

/-- The opening curly brace, written by code point to keep brace
characters out of literals. -/
def openBraceChar : Char := Char.ofNat 123

/-- The closing curly brace, by code point. -/
def closeBraceChar : Char := Char.ofNat 125

/-- Whether `re.search` of an open brace, anything, close brace (DOTALL)
finds a match in the text: some open brace with a later close brace. -/
def bracesMatch (text : String) : Bool :=
  let cs := text.data
  (List.range cs.length).any fun i =>
    (cs.get? i == some openBraceChar)
      && ((List.range cs.length).any fun j =>
            decide (i < j) && (cs.get? j == some closeBraceChar))

/-- The typed fields json.loads delivers from the extracted JSON block
(each `.get` default applied by the parser below); `none` at the outer
level stands for json.loads or a field conversion raising, which the
source swallows into the fallback branch. -/
structure ParsedFields where
  risk_level : Option String
  risk_score : Option ℚ
  markers : List String
  reasoning : Option String
deriving DecidableEq, Repr

/-- The parsed-output record _parse_output returns. -/
structure ParsedData where
  risk_level : MistralRisk
  risk_score : ℚ
  reasoning : String
  markers : List ClinicalMarker
deriving DecidableEq, Repr

/-- The risk_map lookup with default SAFE, applied to the upper-cased
risk_level string. -/
def riskFromString (s : String) : MistralRisk :=
  if s == "CRISIS" then .crisis
  else if s == "CAUTION" then .caution
  else .safe

/-- ExpertLLMStrategy._parse_output: when the brace-delimited block exists
and decodes, map the fields (risk_level upper-cased through risk_map with
default SAFE, risk_score default 0.0, each marker becoming a
ClinicalMarker with category "ai_detected" and confidence 1.0, reasoning
default text); when the block is missing or decoding raises, fall back to
SAFE with risk_score 0.5 if "caution" occurs in the lowered text else
0.1, and the raw output truncated to 100 characters in the reasoning. -/
def parseOutput (text : String) (decoded : Option ParsedFields) : ParsedData :=
  let fallback : ParsedData :=
    { risk_level := .safe
    , risk_score := if containsLower text "caution" then mkRat 1 2 else mkRat 1 10
    , reasoning := "Raw output: " ++ (text.take 100)
    , markers := [] }
  if bracesMatch text then
    match decoded with
    | some f =>
        { risk_level := riskFromString ((f.risk_level.getD "SAFE").toUpper)
        , risk_score := f.risk_score.getD 0
        , reasoning := f.reasoning.getD "No reasoning provided"
        , markers := f.markers.map fun m =>
            { category := "ai_detected", item := m, confidence := 1, evidence := "" } }
    | none => fallback
  else fallback

/-- ExpertLLMStrategy.analyze.  `gen` is the shared-engine completion
oracle (the extracted choices[0].text on success, the raised exception
message otherwise) and `decoded` the json decode oracle.  On inference
failure: the SAFE fallback with p_mistral 0 and model "error".  On
success: the parsed fields under model "mistral-7b-instruct-v0.2" —
including when parsing itself fell back. -/
def expertAnalyze (gen : Except String String)
    (decoded : Option ParsedFields) (latency : ℚ) : ReasoningResult :=
  match gen with
  | .error e =>
      { p_mistral := 0
      , risk_level := .safe
      , reasoning_trace := "Expert analysis failed: " ++ e
      , clinical_markers := []
      , is_sarcasm := false
      , sarcasm_reasoning := ""
      , latency_ms := latency
      , model_used := "error" }
  | .ok text =>
      let d := parseOutput text decoded
      { p_mistral := d.risk_score
      , risk_level := d.risk_level
      , reasoning_trace := d.reasoning
      , clinical_markers := d.markers
      , is_sarcasm := false
      , sarcasm_reasoning := ""
      , latency_ms := latency
      , model_used := "mistral-7b-instruct-v0.2" }

/-! ## Response safety validator
(src/src/conversation/conversation_agent.py,
_validate_response_safety and _generate_safe_fallback_response) -/

/-- The crisis tokens looked for in the student's message. -/
def studentCrisisKeywords : List String :=
  [ "suicide", "kill myself", "end my life", "want to die"
  , "hurt myself", "cut myself" ]

/-- The crisis tokens looked for in the generated response. -/
def responseCrisisKeywords : List String :=
  [ "suicide", "suicidal", "kill yourself", "end your life"
  , "hurt yourself", "self-harm" ]

/-- student_mentioned_crisis: any student crisis token occurs in the
lowercased student message (plain substring containment). -/
def studentMentionedCrisis (studentMessage : String) : Bool :=
  studentCrisisKeywords.any (containsLower studentMessage)

/-- response_mentions_crisis: any response crisis token occurs in the
lowercased response. -/
def responseMentionsCrisis (response : String) : Bool :=
  responseCrisisKeywords.any (containsLower response)

/-- The academic-stressor trigger words of the fallback classifier. -/
def academicStressWords : List String :=
  ["exam", "test", "grade", "homework", "assignment"]

/-- The parental-stressor trigger words of the fallback classifier. -/
def parentalStressWords : List String :=
  ["parent", "mom", "dad", "father", "mother"]

/-- The hard-coded academic-stressor fallback reply. -/
def academicFallbackResponse : String :=
  "It sounds like you\x27re really stressed about your exam. That\x27s completely understandable - it\x27s frustrating when things don\x27t go as planned, especially when you\x27ve prepared. Have you thought about how you might talk to your parents about it? Sometimes it helps to have a plan before the conversation."

/-- The hard-coded parental-stressor fallback reply. -/
def parentalFallbackResponse : String :=
  "It sounds like you\x27re worried about your parents\x27 reaction. That\x27s a lot of pressure to carry. It\x27s okay to feel anxious about disappointing them. If you need someone to talk to about this, your school counselor is a great resource."

/-- The hard-coded generic fallback reply. -/
def genericFallbackResponse : String :=
  "I can hear that you\x27re going through a tough time right now. It\x27s okay to feel overwhelmed sometimes. If you\x27d like to talk more about what\x27s going on, I\x27m here to listen. And remember, your school counselor is always available if you need extra support."

/-- _generate_safe_fallback_response: coarse topic classification of the
student's message — academic words first, then parental words, else
generic. -/
def safeFallbackResponse (studentMessage : String) : String :=
  if academicStressWords.any (containsLower studentMessage) then
    academicFallbackResponse
  else if parentalStressWords.any (containsLower studentMessage) then
    parentalFallbackResponse
  else genericFallbackResponse

/-- _validate_response_safety: when the response mentions crisis and the
student did not, log at critical level and substitute the deterministic
safe fallback; otherwise pass the response through.  The Bool of the pair
records whether the critical log and replacement happened. -/
def validateResponseSafety (response studentMessage : String) :
    String × Bool :=
  if responseMentionsCrisis response && !studentMentionedCrisis studentMessage then
    (safeFallbackResponse studentMessage, true)
  else (response, false)

/-! ## Helper lemmas -/

theorem empathyFusion_eq_spec (cfg : ConsensusConfig) (r s : ℚ) (m : Option ℚ) :
    empathyFusion cfg r s m = pacaFusionSpec cfg r s m := by
  cases m <;>
    simp only [empathyFusion, pacaFusionSpec, qadd_eq, qmul_eq, qdiv_eq]

theorem fusionGuard_vacuous (x : ℚ) :
    (mkRat 1 1000 < ratAbs (qsub x x)) = False := by
  rw [qsub_eq, sub_self, ratAbs_eq, abs_zero, Rat.mkRat_eq_div]
  norm_num

theorem fusedScoreChecked_ok (cfg : ConsensusConfig) (r s m : ℚ) :
    fusedScoreChecked cfg r s m = .ok (empathyFusion cfg r s (some m)) := by
  simp only [fusedScoreChecked, empathyFusion, fusionGuard_vacuous, if_false]

theorem analyzeFastWith_eq (cfg : ConsensusConfig) (msg sid : String)
    (s : SafetyResult) (m : Option ReasoningResult) :
    analyzeFastWith cfg msg sid s m = .ok
      { safety_result := s
      , mistral_result := m
      , final_score := empathyFusion cfg s.p_regex s.p_semantic (m.map (·.p_mistral))
      , risk_level := (fastRisk cfg
          (empathyFusion cfg s.p_regex s.p_semantic (m.map (·.p_mistral))) s.p_regex).1
      , is_crisis := (fastRisk cfg
          (empathyFusion cfg s.p_regex s.p_semantic (m.map (·.p_mistral))) s.p_regex).2
      , matched_patterns := s.matched_patterns } := by
  cases m with
  | none => rfl
  | some r =>
      unfold analyzeFastWith
      dsimp only
      rw [fusedScoreChecked_ok]
      rfl

theorem empathyNode_final_score (st : CouncilState) (resp : String) :
    (empathyNode st resp).final_score
      = empathyFusion st.config (safetyRegexScore st) (safetySemanticScore st)
          (st.mistral_result.map (·.p_mistral)) := rfl

theorem empathyNode_risk_level (st : CouncilState) (resp : String) :
    (empathyNode st resp).risk_level
      = (empathyRisk st.config
          (empathyFusion st.config (safetyRegexScore st) (safetySemanticScore st)
            (st.mistral_result.map (·.p_mistral))) st.is_crisis).1 := rfl

theorem empathyNode_is_crisis (st : CouncilState) (resp : String) :
    (empathyNode st resp).is_crisis
      = (empathyRisk st.config
          (empathyFusion st.config (safetyRegexScore st) (safetySemanticScore st)
            (st.mistral_result.map (·.p_mistral))) st.is_crisis).2 := rfl

theorem empathyNode_mistral_result (st : CouncilState) (resp : String) :
    (empathyNode st resp).mistral_result = st.mistral_result := rfl

theorem empathyRisk_of_crisis (cfg : ConsensusConfig) (f : ℚ) :
    empathyRisk cfg f true = ("CRISIS", true) := rfl

theorem empathyFusion_w_history (cfg : ConsensusConfig) (hw r s : ℚ)
    (m : Option ℚ) :
    empathyFusion { cfg with w_history := hw } r s m = empathyFusion cfg r s m := by
  cases m <;> rfl

theorem fastRisk_floor (cfg : ConsensusConfig) (f r : ℚ)
    (h : mkRat 9 10 ≤ r) : fastRisk cfg f r = ("CRISIS", true) := by
  unfold fastRisk
  rw [if_pos (Or.inr h)]

theorem run_floor (cfg : ConsensusConfig) (msg sid : String)
    (hist : List HistoryMsg) (s : SafetyResult) (m : ReasoningResult)
    (resp : String) (h : mkRat 9 10 ≤ s.p_regex) :
    ((councilRunWith cfg msg sid hist s m resp).risk_level = "CRISIS")
    ∧ ((councilRunWith cfg msg sid hist s m resp).is_crisis = true) := by
  have hd : decide (mkRat 9 10 ≤ s.p_regex) = true := decide_eq_true h
  unfold councilRunWith
  dsimp only
  by_cases hroute : routeAfterReflex
      (reflexNode { initialState msg sid hist with config := cfg } s) = "green_path"
  · rw [if_pos hroute, empathyNode_risk_level, empathyNode_is_crisis]
    have hc : (reflexNode { initialState msg sid hist with config := cfg } s).is_crisis
        = true := by simp [reflexNode, hd]
    rw [hc, empathyRisk_of_crisis]
    exact ⟨rfl, rfl⟩
  · rw [if_neg hroute, empathyNode_risk_level, empathyNode_is_crisis]
    have hc : (clinicalNode
        (reflexNode { initialState msg sid hist with config := cfg } s) m).is_crisis
          = true := by simp [clinicalNode, reflexNode, hd]
    rw [hc, empathyRisk_of_crisis]
    exact ⟨rfl, rfl⟩

theorem run_score (cfg : ConsensusConfig) (msg sid : String)
    (hist : List HistoryMsg) (s : SafetyResult) (m : ReasoningResult)
    (resp : String) :
    (councilRunWith cfg msg sid hist s m resp).final_score
      = pacaFusionSpec cfg s.p_regex s.p_semantic
          ((councilRunWith cfg msg sid hist s m resp).mistral_result.map (·.p_mistral)) := by
  unfold councilRunWith
  dsimp only
  by_cases hroute : routeAfterReflex
      (reflexNode { initialState msg sid hist with config := cfg } s) = "green_path"
  · rw [if_pos hroute, empathyNode_final_score, empathyNode_mistral_result,
      empathyFusion_eq_spec]
    rfl
  · rw [if_neg hroute, empathyNode_final_score, empathyNode_mistral_result,
      empathyFusion_eq_spec]
    rfl

theorem foldl_filter_acc (msgL : List Char) (l : PatternCatalog) (q : ℚ)
    (names : List String) :
    l.foldl (fun acc cat =>
        if categoryMatches msgL cat.2.phrases then
          (ratMax acc.1 cat.2.confidence, acc.2 ++ [cat.1])
        else acc) (q, names)
      = ((l.filter fun cat => categoryMatches msgL cat.2.phrases).foldl
            (fun a c => ratMax a c.2.confidence) q,
         names ++ (l.filter fun cat => categoryMatches msgL cat.2.phrases).map Prod.fst) := by
  induction l generalizing q names with
  | nil => simp
  | cons hd tl ih =>
      by_cases hm : categoryMatches msgL hd.2.phrases = true
      · simp [List.foldl_cons, hm, ih]
      · simp only [Bool.not_eq_true] at hm
        simp [List.foldl_cons, hm, ih]

theorem phraseMatches_nil (p : String) : phraseMatches [] p = false := by
  simp [phraseMatches, phraseAt, boundaryAt]

theorem categoryMatches_nil (phrases : List String) :
    categoryMatches [] phrases = false := by
  unfold categoryMatches
  by_cases he : phrases.isEmpty = true
  · simp [he, boundaryAt]
  · simp only [Bool.not_eq_true] at he
    simp [he, phraseMatches_nil]

theorem matchingCategories_empty_message (catalog : PatternCatalog) :
    matchingCategories catalog "" = [] := by
  unfold matchingCategories
  apply List.filter_eq_nil_iff.mpr
  intro cat _
  have h0 : lowerChars "" = [] := rfl
  rw [h0, categoryMatches_nil]
  simp

theorem occursIn_iff (hay sub : List Char) :
    occursIn hay sub = true ↔ sub <:+: hay := by
  unfold occursIn
  rw [List.any_eq_true]
  constructor
  · rintro ⟨i, hmem, hcond⟩
    rw [Bool.and_eq_true, decide_eq_true_eq] at hcond
    obtain ⟨hle, heq⟩ := hcond
    have heq2 : (hay.drop i).take sub.length = sub := beq_iff_eq.mp heq
    refine ⟨hay.take i, hay.drop (i + sub.length), ?_⟩
    calc hay.take i ++ sub ++ hay.drop (i + sub.length)
        = hay.take i ++ ((hay.drop i).take sub.length ++ (hay.drop i).drop sub.length) := by
          rw [heq2, List.drop_drop, Nat.add_comm, List.append_assoc]
      _ = hay.take i ++ hay.drop i := by rw [List.take_append_drop]
      _ = hay := List.take_append_drop i hay
  · rintro ⟨pre, post, hsplit⟩
    refine ⟨pre.length, ?_, ?_⟩
    · rw [List.mem_range, ← hsplit]
      simp only [List.length_append]
      omega
    · rw [Bool.and_eq_true, decide_eq_true_eq]
      constructor
      · rw [← hsplit]
        simp only [List.length_append]
        omega
      · rw [← hsplit, List.append_assoc, List.drop_left, List.take_left]
        exact beq_self_eq_true sub

theorem containsLower_iff (s kw : String) :
    containsLower s kw = true ↔ kw.data <:+: lowerChars s :=
  occursIn_iff (lowerChars s) kw.data

theorem studentMentionedCrisis_iff (m : String) :
    studentMentionedCrisis m = true
      ↔ ∃ kw ∈ studentCrisisKeywords, kw.data <:+: lowerChars m := by
  unfold studentMentionedCrisis
  simp only [List.any_eq_true, containsLower_iff]

theorem responseMentionsCrisis_iff (r : String) :
    responseMentionsCrisis r = true
      ↔ ∃ kw ∈ responseCrisisKeywords, kw.data <:+: lowerChars r := by
  unfold responseMentionsCrisis
  simp only [List.any_eq_true, containsLower_iff]

/-! ## Claim theorems -/

/-- C1: Safety floor — for every triage whose regex layer score p_regex
is at least 0.90, both CouncilGraph.run and CouncilGraph.analyze_fast
return risk_level CRISIS with is_crisis true, for every config (weights,
thresholds), every mistral outcome and every other layer score. -/
theorem safety_floor_forces_crisis (cfg : ConsensusConfig) (msg sid : String)
    (hist : List HistoryMsg) (s : SafetyResult) (m : ReasoningResult)
    (resp : String) (mf : Option ReasoningResult)
    (h : mkRat 9 10 ≤ s.p_regex) :
    ((councilRunWith cfg msg sid hist s m resp).risk_level = "CRISIS"
      ∧ (councilRunWith cfg msg sid hist s m resp).is_crisis = true)
    ∧ (analyzeFastWith cfg msg sid s mf).toOption.map (·.risk_level) = some "CRISIS"
    ∧ (analyzeFastWith cfg msg sid s mf).toOption.map (·.is_crisis) = some true := by
  refine ⟨run_floor cfg msg sid hist s m resp h, ?_, ?_⟩
  all_goals
    rw [analyzeFastWith_eq]
    simp only [Except.toOption, Option.map]
    rw [fastRisk_floor _ _ _ h]

/-- C1 witness: a concrete triage with p_regex = 0.95 is CRISIS on both
surfaces. -/
theorem safety_floor_forces_crisis_witness :
    mkRat 9 10 ≤ (mkRat 19 20 : ℚ)
    ∧ (((councilRunWith defaultConsensusConfig "I want to die" "s1" []
          { p_regex := mkRat 19 20, p_semantic := mkRat 1 10, p_sarcasm := 0
          , matched_patterns := ["suicidal_ideation"], sarcasm_filtered := false
          , is_crisis := true }
          { p_mistral := mkRat 1 2, risk_level := .caution, reasoning_trace := ""
          , clinical_markers := [], is_sarcasm := false, sarcasm_reasoning := ""
          , latency_ms := 0, model_used := "distilbert-emotion" }
          "resp").risk_level = "CRISIS"
        ∧ (councilRunWith defaultConsensusConfig "I want to die" "s1" []
          { p_regex := mkRat 19 20, p_semantic := mkRat 1 10, p_sarcasm := 0
          , matched_patterns := ["suicidal_ideation"], sarcasm_filtered := false
          , is_crisis := true }
          { p_mistral := mkRat 1 2, risk_level := .caution, reasoning_trace := ""
          , clinical_markers := [], is_sarcasm := false, sarcasm_reasoning := ""
          , latency_ms := 0, model_used := "distilbert-emotion" }
          "resp").is_crisis = true)
      ∧ (analyzeFastWith defaultConsensusConfig "I want to die" "s1"
          { p_regex := mkRat 19 20, p_semantic := mkRat 1 10, p_sarcasm := 0
          , matched_patterns := ["suicidal_ideation"], sarcasm_filtered := false
          , is_crisis := true } none).toOption.map (·.risk_level) = some "CRISIS"
      ∧ (analyzeFastWith defaultConsensusConfig "I want to die" "s1"
          { p_regex := mkRat 19 20, p_semantic := mkRat 1 10, p_sarcasm := 0
          , matched_patterns := ["suicidal_ideation"], sarcasm_filtered := false
          , is_crisis := true } none).toOption.map (·.is_crisis) = some true) :=
  ⟨by decide, safety_floor_forces_crisis _ _ _ _ _ _ _ _ (by decide)⟩

/-- C2: PACA consensus fusion — on both council surfaces the returned
final_score equals the spec formula: with a Clinical result,
R·(w_regex/d) + S·(w_semantic/d) + M·(w_mistral/d) over
d = w_regex + w_semantic + w_mistral; without one, the renormalisation
over w_regex + w_semantic only; and w_history is excluded: changing it
changes neither the formula value nor the Council score. -/
theorem paca_consensus_fusion (cfg : ConsensusConfig) (msg sid : String)
    (hist : List HistoryMsg) (s : SafetyResult) (m : ReasoningResult)
    (resp : String) (mf : Option ReasoningResult) (hw : ℚ) :
    ((councilRunWith cfg msg sid hist s m resp).final_score
      = pacaFusionSpec cfg s.p_regex s.p_semantic
          ((councilRunWith cfg msg sid hist s m resp).mistral_result.map (·.p_mistral)))
    ∧ ((analyzeFastWith cfg msg sid s mf).toOption.map (·.final_score)
      = some (pacaFusionSpec cfg s.p_regex s.p_semantic (mf.map (·.p_mistral))))
    ∧ (pacaFusionSpec { cfg with w_history := hw } s.p_regex s.p_semantic
          (mf.map (·.p_mistral))
        = pacaFusionSpec cfg s.p_regex s.p_semantic (mf.map (·.p_mistral)))
    ∧ ((councilRunWith { cfg with w_history := hw } msg sid hist s m resp).final_score
        = (councilRunWith cfg msg sid hist s m resp).final_score) := by
  refine ⟨run_score cfg msg sid hist s m resp, ?_, ?_, ?_⟩
  · rw [analyzeFastWith_eq]
    simp only [Except.toOption, Option.map]
    rw [empathyFusion_eq_spec]
  · cases mf <;> rfl
  · have hroute_eq : routeAfterReflex
        (reflexNode { initialState msg sid hist with config := { cfg with w_history := hw } } s)
        = routeAfterReflex (reflexNode { initialState msg sid hist with config := cfg } s) := rfl
    unfold councilRunWith
    dsimp only
    rw [hroute_eq]
    by_cases hroute : routeAfterReflex
        (reflexNode { initialState msg sid hist with config := cfg } s) = "green_path"
    · rw [if_pos hroute, if_pos hroute, empathyNode_final_score, empathyNode_final_score]
      exact empathyFusion_w_history cfg hw _ _ _
    · rw [if_neg hroute, if_neg hroute, empathyNode_final_score, empathyNode_final_score]
      exact empathyFusion_w_history cfg hw _ _ _

/-- C3: Regex layer contract — analyze returns the maximum category
confidence over exactly the categories whose boundary-wrapped,
case-insensitive alternation of escaped phrases matches the lowercased
message, paired with the list of all matching categories in catalog
order; the empty message yields (0.0, []); the context argument is
ignored; and the phrase "die" does not match inside "studied" but does
match "I want to die" at its confidence 0.95. -/
theorem regex_layer_contract (catalog : PatternCatalog) (message : String)
    (ctx ctx2 : List String) :
    (regexAnalyze catalog message ctx
      = ((matchingCategories catalog message).foldl
            (fun a c => ratMax a c.2.confidence) 0,
         (matchingCategories catalog message).map Prod.fst))
    ∧ regexAnalyze catalog "" ctx = (0, [])
    ∧ regexAnalyze catalog message ctx = regexAnalyze catalog message ctx2
    ∧ regexAnalyze dieCatalog "studied" [] = (0, [])
    ∧ regexAnalyze dieCatalog "I want to die" [] = (mkRat 19 20, ["suicidal_ideation"]) := by
  refine ⟨?_, ?_, rfl, by decide, by decide⟩
  · unfold regexAnalyze matchingCategories
    dsimp only
    rw [foldl_filter_acc]
    simp
  · unfold regexAnalyze
    dsimp only
    rw [foldl_filter_acc]
    have h := matchingCategories_empty_message catalog
    unfold matchingCategories at h
    rw [h]
    simp

/-- C5: Response safety validation — when the generated response contains
a crisis token and the student message contains none, the validator
returns the deterministic safe fallback for the student's topic and
flags the critical-level replacement; otherwise (in particular whenever a
crisis mention in the response is matched by one in the message) the
candidate response passes through unchanged. -/
theorem response_safety_validation (msg resp : String) :
    ((∃ kw ∈ responseCrisisKeywords, kw.data <:+: lowerChars resp) →
      (∀ kw ∈ studentCrisisKeywords, ¬ kw.data <:+: lowerChars msg) →
      validateResponseSafety resp msg = (safeFallbackResponse msg, true))
    ∧ (((∃ kw ∈ responseCrisisKeywords, kw.data <:+: lowerChars resp) →
        (∃ kw ∈ studentCrisisKeywords, kw.data <:+: lowerChars msg)) →
      validateResponseSafety resp msg = (resp, false)) := by
  constructor
  · intro hA hB
    have h1 : responseMentionsCrisis resp = true :=
      (responseMentionsCrisis_iff resp).mpr hA
    have h2 : studentMentionedCrisis msg = false := by
      cases hsm : studentMentionedCrisis msg
      · rfl
      · obtain ⟨kw, hmem, hinf⟩ := (studentMentionedCrisis_iff msg).mp hsm
        exact absurd hinf (hB kw hmem)
    unfold validateResponseSafety
    rw [h1, h2]
    rfl
  · intro hAB
    unfold validateResponseSafety
    cases h1 : responseMentionsCrisis resp
    · rfl
    · have h2 : studentMentionedCrisis msg = true :=
        (studentMentionedCrisis_iff msg).mpr (hAB ((responseMentionsCrisis_iff resp).mp h1))
      rw [h2]
      rfl

/-- C5 witness: a parental/academic stressor message with a generated
reply that mentions suicide is replaced by the safe fallback. -/
theorem response_safety_validation_witness :
    (∃ kw ∈ responseCrisisKeywords,
      kw.data <:+: lowerChars "Maybe you are having thoughts of suicide")
    ∧ (∀ kw ∈ studentCrisisKeywords,
      ¬ kw.data <:+: lowerChars "I failed my exam and my parents will be mad")
    ∧ validateResponseSafety "Maybe you are having thoughts of suicide"
        "I failed my exam and my parents will be mad"
      = (safeFallbackResponse "I failed my exam and my parents will be mad", true) := by
  have hA : ∃ kw ∈ responseCrisisKeywords,
      kw.data <:+: lowerChars "Maybe you are having thoughts of suicide" :=
    ⟨"suicide", by decide, (occursIn_iff _ _).mp (by decide)⟩
  have hB : ∀ kw ∈ studentCrisisKeywords,
      ¬ kw.data <:+: lowerChars "I failed my exam and my parents will be mad" := by
    intro kw hmem hinf
    have ht : studentMentionedCrisis "I failed my exam and my parents will be mad" = true :=
      (studentMentionedCrisis_iff _).mpr ⟨kw, hmem, hinf⟩
    have hf : studentMentionedCrisis "I failed my exam and my parents will be mad" = false := by
      decide
    rw [hf] at ht
    exact Bool.false_ne_true ht
  exact ⟨hA, hB,
    (response_safety_validation "I failed my exam and my parents will be mad"
      "Maybe you are having thoughts of suicide").1 hA hB⟩

/-- C6: Expert invocation protocol — with the Fast result already in hand
(preliminary risk = its p_mistral), a Fast selection returns the Fast
result at once whatever the Expert oracle would have done; an Expert
selection returns the Expert result and resets the failure counter on
success, and returns the Fast result with the counter incremented by
exactly one on timeout or exception. -/
theorem expert_invocation_protocol (st : SelectorState) (msg : String)
    (ctx : List String) (fastR r : ReasoningResult) (e : String) :
    ((selectStrategy st msg ctx (some fastR.p_mistral)).1 = .fast →
      analyzeWithSelection st msg ctx fastR (.success r) = (fastR, st)
      ∧ analyzeWithSelection st msg ctx fastR .timeout = (fastR, st)
      ∧ analyzeWithSelection st msg ctx fastR (.failure e) = (fastR, st))
    ∧ ((selectStrategy st msg ctx (some fastR.p_mistral)).1 = .expert →
      analyzeWithSelection st msg ctx fastR (.success r)
        = (r, { st with expertFailures := 0 })
      ∧ analyzeWithSelection st msg ctx fastR .timeout
        = (fastR, { st with expertFailures := st.expertFailures + 1 })
      ∧ analyzeWithSelection st msg ctx fastR (.failure e)
        = (fastR, { st with expertFailures := st.expertFailures + 1 })) := by
  constructor <;> intro hsel <;>
    refine ⟨?_, ?_, ?_⟩ <;>
      · unfold analyzeWithSelection
        dsimp only
        rw [hsel]
        try rfl

/-- C6 witness: a crisis-keyword message routes to Expert on a fresh
selector; each Expert outcome behaves as specified. -/
theorem expert_invocation_protocol_witness :
    (selectStrategy mistralSelectorInit "suicide" []
      (some ({ p_mistral := 0, risk_level := .safe, reasoning_trace := ""
             , clinical_markers := [], is_sarcasm := false, sarcasm_reasoning := ""
             , latency_ms := 0, model_used := "distilbert-emotion" } : ReasoningResult).p_mistral)).1
      = .expert
    ∧ (analyzeWithSelection mistralSelectorInit "suicide" []
        { p_mistral := 0, risk_level := .safe, reasoning_trace := ""
        , clinical_markers := [], is_sarcasm := false, sarcasm_reasoning := ""
        , latency_ms := 0, model_used := "distilbert-emotion" }
        (.success
          { p_mistral := mkRat 4 5, risk_level := .crisis, reasoning_trace := "t"
          , clinical_markers := [], is_sarcasm := false, sarcasm_reasoning := ""
          , latency_ms := 0, model_used := "mistral-7b-instruct-v0.2" })
        = ({ p_mistral := mkRat 4 5, risk_level := .crisis, reasoning_trace := "t"
           , clinical_markers := [], is_sarcasm := false, sarcasm_reasoning := ""
           , latency_ms := 0, model_used := "mistral-7b-instruct-v0.2" },
           { mistralSelectorInit with expertFailures := 0 })
      ∧ analyzeWithSelection mistralSelectorInit "suicide" []
        { p_mistral := 0, risk_level := .safe, reasoning_trace := ""
        , clinical_markers := [], is_sarcasm := false, sarcasm_reasoning := ""
        , latency_ms := 0, model_used := "distilbert-emotion" }
        .timeout
        = ({ p_mistral := 0, risk_level := .safe, reasoning_trace := ""
           , clinical_markers := [], is_sarcasm := false, sarcasm_reasoning := ""
           , latency_ms := 0, model_used := "distilbert-emotion" },
           { mistralSelectorInit with
               expertFailures := mistralSelectorInit.expertFailures + 1 })
      ∧ analyzeWithSelection mistralSelectorInit "suicide" []
        { p_mistral := 0, risk_level := .safe, reasoning_trace := ""
        , clinical_markers := [], is_sarcasm := false, sarcasm_reasoning := ""
        , latency_ms := 0, model_used := "distilbert-emotion" }
        (.failure "boom")
        = ({ p_mistral := 0, risk_level := .safe, reasoning_trace := ""
           , clinical_markers := [], is_sarcasm := false, sarcasm_reasoning := ""
           , latency_ms := 0, model_used := "distilbert-emotion" },
           { mistralSelectorInit with
               expertFailures := mistralSelectorInit.expertFailures + 1 })) :=
  ⟨by decide,
    (expert_invocation_protocol mistralSelectorInit "suicide" [] _ _ "boom").2 (by decide)⟩

/-- C7 counterexample: after three consecutive Expert failures the
breaker is open, and it is built from the failure sequence; the selector
records no timestamps, so the passage of 30 seconds (the claimed
half-open delay) leaves its state unchanged and the next selection is
still Fast with reason circuit_breaker_open — even for a crisis-keyword
message that a fresh selector would route to Expert.  The claimed
re-enabling of Expert after the breaker timeout does not exist. -/
theorem circuit_breaker_no_half_open :
    openSelector
      = recordExpertFailure (recordExpertFailure (recordExpertFailure mistralSelectorInit))
    ∧ isCircuitOpen openSelector = true
    ∧ selectorElapse openSelector 30 = openSelector
    ∧ selectStrategy (selectorElapse openSelector 30) "suicide" [] none
        = (.fast, "circuit_breaker_open")
    ∧ selectStrategy mistralSelectorInit "suicide" [] none
        = (.expert, "crisis_keywords") := by
  decide

/-- C7 amended: once the failure counter reaches the threshold the
Selector chooses Fast (reason circuit_breaker_open) for every subsequent
call indefinitely — the state holds no clock, elapsed time changes
nothing, and the analyze protocol returns the Fast result leaving the
breaker open; record_expert_success would reset the counter to 0, but an
open breaker prevents the protocol from ever running Expert. -/
theorem circuit_breaker_stays_open (st : SelectorState) (msg : String)
    (ctx : List String) (p : Option ℚ) (fastR : ReasoningResult)
    (outcome : ExpertOutcome) (t : ℚ) (h : isCircuitOpen st = true) :
    selectStrategy st msg ctx p = (.fast, "circuit_breaker_open")
    ∧ selectorElapse st t = st
    ∧ analyzeWithSelection st msg ctx fastR outcome = (fastR, st)
    ∧ isCircuitOpen (analyzeWithSelection st msg ctx fastR outcome).2 = true
    ∧ recordExpertSuccess st = { st with expertFailures := 0 } := by
  have hsel : ∀ q : Option ℚ, selectStrategy st msg ctx q = (.fast, "circuit_breaker_open") := by
    intro q
    unfold selectStrategy
    rw [h]
    rfl
  have hana : analyzeWithSelection st msg ctx fastR outcome = (fastR, st) := by
    unfold analyzeWithSelection
    dsimp only
    rw [hsel (some fastR.p_mistral)]
  refine ⟨hsel p, rfl, hana, ?_, rfl⟩
  rw [hana]
  exact h

/-- C7 witness for the amended theorem: the open selector stays open and
keeps answering Fast. -/
theorem circuit_breaker_stays_open_witness :
    isCircuitOpen openSelector = true
    ∧ (selectStrategy openSelector "suicide" [] none
        = (.fast, "circuit_breaker_open")
      ∧ selectorElapse openSelector 30 = openSelector
      ∧ analyzeWithSelection openSelector "suicide" []
          { p_mistral := 0, risk_level := .safe, reasoning_trace := ""
          , clinical_markers := [], is_sarcasm := false, sarcasm_reasoning := ""
          , latency_ms := 0, model_used := "distilbert-emotion" } .timeout
        = ({ p_mistral := 0, risk_level := .safe, reasoning_trace := ""
           , clinical_markers := [], is_sarcasm := false, sarcasm_reasoning := ""
           , latency_ms := 0, model_used := "distilbert-emotion" }, openSelector)
      ∧ isCircuitOpen (analyzeWithSelection openSelector "suicide" []
          { p_mistral := 0, risk_level := .safe, reasoning_trace := ""
          , clinical_markers := [], is_sarcasm := false, sarcasm_reasoning := ""
          , latency_ms := 0, model_used := "distilbert-emotion" } .timeout).2 = true
      ∧ recordExpertSuccess openSelector = { openSelector with expertFailures := 0 }) :=
  ⟨by decide,
    circuit_breaker_stays_open openSelector "suicide" [] none _ .timeout 30 (by decide)⟩

/-- C8 counterexample: an Expert completion without a JSON block is a
parse failure, yet the returned ReasoningResult carries p_mistral = 0.1
(0.5 had the text mentioned caution) and
model_used = "mistral-7b-instruct-v0.2" — not the claimed p_mistral = 0 /
model_used = "error" fallback. -/
theorem parse_failure_not_error_fallback :
    bracesMatch "gibberish" = false
    ∧ expertAnalyze (.ok "gibberish") none 0
        = { p_mistral := mkRat 1 10, risk_level := .safe
          , reasoning_trace := "Raw output: gibberish", clinical_markers := []
          , is_sarcasm := false, sarcasm_reasoning := "", latency_ms := 0
          , model_used := "mistral-7b-instruct-v0.2" }
    ∧ ¬ ((expertAnalyze (.ok "gibberish") none 0).p_mistral = 0
          ∧ (expertAnalyze (.ok "gibberish") none 0).model_used = "error") := by
  decide

/-- C8 amended: on inference failure both strategies return the complete
SAFE fallback with p_mistral = 0 and model_used = "error" and never
throw; on Expert output-parse failure (no JSON block) the result is
still complete and SAFE but carries p_mistral = 0.5 when "caution"
occurs in the raw output and 0.1 otherwise, the truncated raw output in
reasoning_trace, and model_used = "mistral-7b-instruct-v0.2". -/
theorem reasoning_failure_fallback (e text : String) (lat : ℚ)
    (d : Option ParsedFields) (fmt : ℚ → String)
    (hparse : bracesMatch text = false) :
    expertAnalyze (.error e) d lat
      = { p_mistral := 0, risk_level := .safe
        , reasoning_trace := "Expert analysis failed: " ++ e
        , clinical_markers := [], is_sarcasm := false, sarcasm_reasoning := ""
        , latency_ms := lat, model_used := "error" }
    ∧ fastAnalyze true (.exc e) fmt lat
      = { p_mistral := 0, risk_level := .safe, reasoning_trace := "Error: " ++ e
        , clinical_markers := [], is_sarcasm := false, sarcasm_reasoning := ""
        , latency_ms := lat, model_used := "error" }
    ∧ expertAnalyze (.ok text) d lat
      = { p_mistral := if containsLower text "caution" then mkRat 1 2 else mkRat 1 10
        , risk_level := .safe
        , reasoning_trace := "Raw output: " ++ text.take 100
        , clinical_markers := [], is_sarcasm := false, sarcasm_reasoning := ""
        , latency_ms := lat, model_used := "mistral-7b-instruct-v0.2" } := by
  refine ⟨rfl, rfl, ?_⟩
  unfold expertAnalyze parseOutput
  dsimp only
  rw [hparse]
  rfl

/-- C8 witness for the amended theorem at the concrete parse-failure
input. -/
theorem reasoning_failure_fallback_witness :
    bracesMatch "gibberish" = false
    ∧ (expertAnalyze (.error "boom") none 0
        = { p_mistral := 0, risk_level := .safe
          , reasoning_trace := "Expert analysis failed: boom"
          , clinical_markers := [], is_sarcasm := false, sarcasm_reasoning := ""
          , latency_ms := 0, model_used := "error" }
      ∧ fastAnalyze true (.exc "boom") (fun _ => "") 0
        = { p_mistral := 0, risk_level := .safe, reasoning_trace := "Error: boom"
          , clinical_markers := [], is_sarcasm := false, sarcasm_reasoning := ""
          , latency_ms := 0, model_used := "error" }
      ∧ expertAnalyze (.ok "gibberish") none 0
        = { p_mistral := if containsLower "gibberish" "caution" then mkRat 1 2 else mkRat 1 10
          , risk_level := .safe
          , reasoning_trace := "Raw output: " ++ ("gibberish" : String).take 100
          , clinical_markers := [], is_sarcasm := false, sarcasm_reasoning := ""
          , latency_ms := 0, model_used := "mistral-7b-instruct-v0.2" }) :=
  ⟨by decide, reasoning_failure_fallback "boom" "gibberish" 0 none (fun _ => "") (by decide)⟩

/-- C9 counterexample: the all-default ConsensusConfig validates and is
constructed with circuit_breaker_threshold = 5, so the claimed default of
3 is wrong (3 is the Strategy Selector's separate max_expert_failures
default). -/
theorem default_breaker_threshold_not_three :
    validateConfig defaultConsensusConfig = .ok defaultConsensusConfig
    ∧ defaultConsensusConfig.circuit_breaker_threshold = 5
    ∧ ¬ (defaultConsensusConfig.circuit_breaker_enabled = true
          ∧ defaultConsensusConfig.circuit_breaker_threshold = 3
          ∧ defaultConsensusConfig.circuit_breaker_timeout = 30) := by
  decide

/-- C9 amended: an all-default ConsensusConfig passes construction
validation with circuit_breaker_enabled = true,
circuit_breaker_threshold = 5 failures and circuit_breaker_timeout = 30
seconds; the reasoner-owned selector separately defaults to 3 Expert
failures. -/
theorem default_breaker_configuration :
    defaultConsensusConfig.circuit_breaker_enabled = true
    ∧ defaultConsensusConfig.circuit_breaker_threshold = 5
    ∧ defaultConsensusConfig.circuit_breaker_timeout = 30
    ∧ mistralSelectorInit.maxExpertFailures = 3
    ∧ validateConfig defaultConsensusConfig = .ok defaultConsensusConfig := by
  decide

/-- C10: the Council surfaces take no configuration argument — run and
analyze_fast are exactly their generalised forms applied to a freshly
built all-default ConsensusConfig, the state carries that default config,
and the timeouts are hard-coded (15 s Clinical bound in analyze_fast,
120 s expert timeout and 3 max failures in the reasoner's selector), so
the weights and thresholds in effect are always the fixed defaults and no
caller-supplied config can reach the Council path. -/
theorem council_fixed_default_config (msg sid : String) (hist : List HistoryMsg)
    (s : SafetyResult) (m : ReasoningResult) (resp : String)
    (mf : Option ReasoningResult) :
    councilRun msg sid hist s m resp
      = councilRunWith defaultConsensusConfig msg sid hist s m resp
    ∧ analyzeFast msg sid s mf = analyzeFastWith defaultConsensusConfig msg sid s mf
    ∧ (councilRun msg sid hist s m resp).config = defaultConsensusConfig
    ∧ analyzeFastClinicalTimeoutSeconds = 15
    ∧ mistralSelectorInit.expertTimeout = 120
    ∧ mistralSelectorInit.maxExpertFailures = 3
    ∧ defaultConsensusConfig.w_regex = mkRat 2 5
    ∧ defaultConsensusConfig.w_semantic = mkRat 1 5
    ∧ defaultConsensusConfig.w_mistral = mkRat 3 10
    ∧ defaultConsensusConfig.w_history = mkRat 1 10
    ∧ defaultConsensusConfig.crisis_threshold = mkRat 9 10
    ∧ defaultConsensusConfig.caution_threshold = mkRat 13 20 := by
  refine ⟨rfl, rfl, ?_, rfl, rfl, rfl, rfl, rfl, rfl, rfl, rfl, rfl⟩
  unfold councilRun councilRunWith
  dsimp only
  by_cases hroute : routeAfterReflex
      (reflexNode { initialState msg sid hist with config := defaultConsensusConfig } s)
        = "green_path"
  · rw [if_pos hroute]
    rfl
  · rw [if_neg hroute]
    rfl

end Beacon
